import Mathlib

/-!
A verification development for the Gmail-agent repository: a shallow
embedding, in Lean, of the message normalizer, the mail-service
operations (src/gmail_service.py) and the three agent tools
(src/agent.py), together with theorems about the spec's claims.

Python strings are modelled as Lean `String` (a list of code points,
matching Python's character-indexed slicing), Python `dict`-shaped
provider payloads as structures with `Option` fields for possibly
absent keys, and external collaborators (the Gmail REST endpoints, the
base64/utf-8 decoding, the OAuth refresh and grant flows) as explicit
function parameters of the model.
-/

/-- Python `s[:n]`: the first `n` characters of `s` (all of `s` when shorter). -/
def pyslice (s : String) (n : Nat) : String :=
  String.mk (s.data.take n)

/-- One entry of a payload's `headers` list: a dict with keys `name` and `value`. -/
structure Header where
  name : String
  value : String
deriving DecidableEq, Repr

/-- `dict.get` on the dict comprehension built from the header list
(`\x7bh["name"]: h["value"] for h in headers\x7d.get(key, default)`):
later occurrences of a key overwrite earlier ones, so the value of the
last header with the given name is returned, or the default when none
has it. -/
def headerGet (hs : List Header) (key df : String) : String :=
  match hs.reverse.find? (fun h => h.name == key) with
  | some h => h.value
  | none => df

/-- A node of the raw Gmail message payload tree: its `mimeType`, its
`headers` list (absent modelled as `[]`, matching `.get("headers", [])`),
the optional `data` field of its `body` dict (`none` when the key is
absent), and its optional `parts` list (`none` when the `"parts"` key is
absent). Parts may nest further parts, as real Gmail payloads do. -/
inductive MsgPart where
  | mk (mimeType : String) (headers : List Header)
      (bodyData : Option String) (parts : Option (List MsgPart))

def MsgPart.mimeType : MsgPart → String
  | .mk m _ _ _ => m

def MsgPart.headers : MsgPart → List Header
  | .mk _ h _ _ => h

def MsgPart.bodyData : MsgPart → Option String
  | .mk _ _ d _ => d

def MsgPart.parts : MsgPart → Option (List MsgPart)
  | .mk _ _ _ p => p

/-- A raw message as returned by `messages.get(format="full")`:
`id`, `threadId`, the optional `labelIds` list and the `payload`. -/
structure GmailMessage where
  id : String
  threadId : String
  labelIds : Option (List String)
  payload : MsgPart

/-- The `EmailMessage` pydantic model of src/gmail_service.py. -/
structure EmailMessage where
  id : String
  thread_id : String
  subject : String
  sender : String
  recipient : String
  body : String
  date : String
  labels : List String
deriving DecidableEq, Repr

instance : Inhabited EmailMessage :=
  ⟨⟨"", "", "", "", "", "", "", []⟩⟩

/-- The loop body of `_extract_body` over the top-level `parts` list:
for each part, if its mimeType is `"text/plain"` and its body `data` is
non-empty, decode it and break; otherwise continue with the remaining
parts (in the source the `break` sits inside `if data:`, so a
`text/plain` part with absent or empty data does not stop the scan). -/
def firstPlainText (decode : String → String) : List MsgPart → String
  | [] => ""
  | p :: rest =>
    if p.mimeType = "text/plain" then
      let data := p.bodyData.getD ""
      if data ≠ "" then decode data
      else firstPlainText decode rest
    else firstPlainText decode rest

/-- The body computed by `_extract_body` before the final `[:1000]`
truncation: scan the top-level parts when a `"parts"` key exists,
otherwise decode a single-part `text/plain` payload's data; `""` in
every other case. `decode` stands for
`base64.urlsafe_b64decode(data).decode("utf-8")`. -/
def decodedBody (decode : String → String) (payload : MsgPart) : String :=
  match payload.parts with
  | some ps => firstPlainText decode ps
  | none =>
    if payload.mimeType = "text/plain" then
      let data := payload.bodyData.getD ""
      if data ≠ "" then decode data else ""
    else ""

/-- `GmailService._extract_body`: the decoded body truncated to the
first 1000 characters (`return body[:1000]`). -/
def extract_body (decode : String → String) (payload : MsgPart) : String :=
  pyslice (decodedBody decode payload) 1000

/-- `GmailService._parse_message`: normalize a raw message into an
`EmailMessage`, defaulting missing headers and missing `labelIds`. -/
def parse_message (decode : String → String) (message : GmailMessage) : EmailMessage :=
  let headers := message.payload.headers
  { id := message.id
    thread_id := message.threadId
    subject := headerGet headers "Subject" "No Subject"
    sender := headerGet headers "From" "Unknown"
    recipient := headerGet headers "To" "Unknown"
    body := extract_body decode message.payload
    date := headerGet headers "Date" "Unknown"
    labels := message.labelIds.getD [] }

/-- A lightweight message reference from `messages.list`: a dict with an `id`. -/
structure MsgRef where
  id : String
deriving DecidableEq, Repr

/-- The provider's response to `messages.list`: a dict whose
`"messages"` key may be absent. -/
structure ListResponse where
  messages : Option (List MsgRef)

/-- The model of a `GmailService` instance after authentication: the
external collaborators it talks to. `rawList query maxResults` is the
provider's `messages.list(userId="me", q=query, maxResults=maxResults)`
response, `rawGet id` the provider's `messages.get(userId="me", id=id,
format="full")` payload, and `decode` the transport decoding. -/
structure GmailServiceModel where
  rawList : String → Nat → ListResponse
  rawGet : String → GmailMessage
  decode : String → String

/-- `GmailService.list_messages`: issue `messages.list` and return
`result.get("messages", [])`. -/
def list_messages (svc : GmailServiceModel) (query : String) (max_results : Nat) :
    List MsgRef :=
  (svc.rawList query max_results).messages.getD []

/-- `GmailService.get_message`: fetch one full payload and normalize it. -/
def get_message (svc : GmailServiceModel) (message_id : String) : EmailMessage :=
  parse_message svc.decode (svc.rawGet message_id)

/-- The completion of the concurrent tasks handed to `asyncio.gather`,
in the order the event loop happens to finish them: `order` lists task
indices in completion order, and each completed task records its index
together with its fetched result (indices outside the task list produce
nothing). -/
def completeTasks (fetch : α → β) (ids : List α) (order : List Nat) :
    List (Nat × β) :=
  order.filterMap (fun i => (ids[i]?).map (fun a => (i, fetch a)))

/-- `asyncio.gather`'s reassembly: slot `i` of the returned sequence is
the result recorded for task index `i`, whatever position it finished in. -/
def reassemble [Inhabited β] (n : Nat) (done : List (Nat × β)) : List β :=
  (List.range n).map (fun i => (((done.find? (fun p => p.1 == i)).map Prod.snd)).getD default)

/-- `await asyncio.gather(*tasks)` for `tasks = [fetch a for a in ids]`,
under a completion order `order`: complete the fetches in that order,
then reassemble by task index. -/
def asyncGather [Inhabited β] (fetch : α → β) (ids : List α) (order : List Nat) :
    List β :=
  reassemble ids.length (completeTasks fetch ids order)

/-- `GmailService.get_recent_emails`: list message ids with an empty
query, then fetch full details for each concurrently; `order` is the
completion order of the concurrent fetches. -/
def get_recent_emails (svc : GmailServiceModel) (order : List Nat) (count : Nat) :
    List EmailMessage :=
  let messages := list_messages svc "" count
  asyncGather (fun m => get_message svc m.id) messages order

/-! ## The three agent tools (src/agent.py) -/

/-- One numbered entry of the summary rendering shared by
`list_recent_emails` and `search_emails`: sender, subject, date and a
100-character body preview. -/
def renderSummary (i : Nat) (e : EmailMessage) : String :=
  toString i ++ ". From: " ++ e.sender ++ "\n" ++
  "   Subject: " ++ e.subject ++ "\n" ++
  "   Date: " ++ e.date ++ "\n" ++
  "   Preview: " ++ pyslice e.body 100 ++ "...\n\n"

/-- The `for i, email in enumerate(emails, 1)` accumulation of summary lines. -/
def renderSummaries (emails : List EmailMessage) : String :=
  String.join (emails.enum.map (fun p => renderSummary (p.1 + 1) p.2))

/-- The email list the `list_recent_emails` tool fetches: the
caller-supplied count clamped by `count = min(count, 20)`, then
`get_recent_emails`. -/
def list_recent_emails_fetched (svc : GmailServiceModel) (order : List Nat)
    (count : Nat) : List EmailMessage :=
  get_recent_emails svc order (min count 20)

/-- The `list_recent_emails` tool: clamp the count to 20, fetch, and
render either the no-emails sentinel or the numbered summaries. -/
def list_recent_emails (svc : GmailServiceModel) (order : List Nat)
    (count : Nat) : String :=
  let emails := list_recent_emails_fetched svc order count
  if emails.isEmpty then "No emails found."
  else
    "Found " ++ toString emails.length ++ " recent emails:\n\n" ++
      renderSummaries emails

/-- The email list the `search_emails` tool fetches: the count clamped
by `count = min(count, 10)`, `list_messages(query, count)`, then a
concurrent `get_message` per id gathered under completion order `order`. -/
def search_emails_fetched (svc : GmailServiceModel) (order : List Nat)
    (query : String) (count : Nat) : List EmailMessage :=
  asyncGather (fun m => get_message svc m.id) (list_messages svc query (min count 10))
    order

/-- The `search_emails` tool: clamp the count to 10, list matching ids,
return the echoed-query sentinel when none match, else fetch each id
concurrently and render the numbered summaries. -/
def search_emails (svc : GmailServiceModel) (order : List Nat)
    (query : String) (count : Nat) : String :=
  let messages := list_messages svc query (min count 10)
  if messages.isEmpty then "No emails found for query: " ++ query
  else
    let emails := search_emails_fetched svc order query count
    "Found " ++ toString emails.length ++ " emails matching '" ++ query ++ "':\n\n" ++
      renderSummaries emails

/-- The detail rendering of the `get_email_details` tool. -/
def renderDetails (e : EmailMessage) : String :=
  "Email Details:\n" ++
  "From: " ++ e.sender ++ "\n" ++
  "To: " ++ e.recipient ++ "\n" ++
  "Subject: " ++ e.subject ++ "\n" ++
  "Date: " ++ e.date ++ "\n" ++
  "Labels: " ++ String.intercalate ", " e.labels ++ "\n\n" ++
  "Body:\n" ++ e.body ++ "\n"

/-- The `get_email_details` tool: re-fetch up to 20 recent emails and
index into them 1-based; an empty list or an out-of-range index yields
the sentinel error text naming the available range `1-N`. `email_index`
is `Int` because the backend may supply any integer. -/
def get_email_details (svc : GmailServiceModel) (order : List Nat)
    (email_index : Int) : String :=
  let emails := get_recent_emails svc order 20
  if emails.isEmpty ∨ email_index < 1 ∨ email_index > (emails.length : Int) then
    "Email index " ++ toString email_index ++ " not found. Available: 1-" ++
      toString emails.length
  else
    renderDetails (emails.getD (email_index - 1).toNat default)

/-- A provider whose inbox for each query is the fixed id list
`inbox query`, newest first, and which honors `maxResults` by returning
the first `maxResults` of them — the `messages.list` contract of the
external Gmail API. -/
def inboxService (inbox : String → List String) (msgs : String → GmailMessage)
    (decode : String → String) : GmailServiceModel :=
  ⟨fun q k => ⟨some (((inbox q).map MsgRef.mk).take k)⟩, msgs, decode⟩

/-! ## Authentication (GmailService.authenticate) -/

/-- The observable state of a loaded OAuth token: whether it is
currently valid, whether it is expired, and whether it carries a
refresh token (`creds.valid`, `creds.expired`, `creds.refresh_token`). -/
structure TokenCreds where
  valid : Bool
  expired : Bool
  hasRefreshToken : Bool
deriving DecidableEq, Repr

/-- The environment `authenticate` runs in: the persisted token file
(`none` when `gmail_token_path` does not exist), whether the
client-secret file at `gmail_credentials_path` exists, and the external
OAuth collaborators: `refreshOutcome c` is the credential state after
`creds.refresh(Request())`, `grantOutcome` the credentials produced by
the interactive `flow.run_local_server(port=0)` grant. -/
structure AuthEnv where
  tokenFile : Option TokenCreds
  credentialsFileExists : Bool
  refreshOutcome : TokenCreds → TokenCreds
  grantOutcome : TokenCreds

/-- The outcome of `authenticate`: either it holds final credentials
`creds` and has written `persisted` to the token store (`none` when it
did not write), or it raised the `FileNotFoundError` for the missing
client-secret file. -/
inductive AuthResult where
  | ok (creds : TokenCreds) (persisted : Option TokenCreds)
  | credentialsUnavailable
deriving DecidableEq, Repr

/-- `GmailService.authenticate`: load the persisted token if present;
if it is absent or invalid, refresh in place when it is expired with a
refresh token, otherwise run the interactive grant — failing first when
the client-secret file is missing — and in either of those two branches
persist the resulting credentials to the token store. -/
def authenticate (env : AuthEnv) : AuthResult :=
  match env.tokenFile with
  | some c =>
    if c.valid then .ok c none
    else if c.expired && c.hasRefreshToken then
      let c' := env.refreshOutcome c
      .ok c' (some c')
    else if env.credentialsFileExists then
      .ok env.grantOutcome (some env.grantOutcome)
    else .credentialsUnavailable
  | none =>
    if env.credentialsFileExists then .ok env.grantOutcome (some env.grantOutcome)
    else .credentialsUnavailable

/-- The token states in which the source's control flow reaches the
interactive-grant branch: no persisted token, or a persisted token that
is invalid and cannot be refreshed (not both expired and carrying a
refresh token). -/
def interactiveGrantRequired (env : AuthEnv) : Prop :=
  env.tokenFile = none ∨
    ∃ c, env.tokenFile = some c ∧ c.valid = false ∧
      (c.expired && c.hasRefreshToken) = false

/-! ## The Agent Loop -/

/-- What the generation backend returns for one `Thinking` step:
either a structured tool-call request or a final-answer text. -/
inductive BackendReply where
  | toolCall (observation : String)
  | finalAnswer (text : String)

/-- The outcome of one conversation turn: a final answer, or the
terminal `Failed` state of an exhausted iteration budget. -/
inductive TurnOutcome where
  | done (text : String)
  | failed
deriving DecidableEq

/-- Modelled from the spec: the Agent Loop of §4.4 is implemented by
the external ReActAgent library and is not part of src/; only its
iteration budget is set there. Per §4.4, each iteration asks the
backend for a reply: a final answer ends the turn in `Responding/Done`,
a tool call dispatches and loops, and exhausting the budget without a
final answer ends the turn in the terminal `Failed` state. The result
pairs the outcome with the number of iterations executed. -/
def agentLoopAux (backend : Nat → BackendReply) : Nat → Nat → TurnOutcome × Nat
  | 0, used => (.failed, used)
  | budget + 1, used =>
    match backend used with
    | .finalAnswer t => (.done t, used + 1)
    | .toolCall _ => agentLoopAux backend budget (used + 1)

/-- Modelled from the spec: run one conversation turn of the Agent Loop
under the given iteration budget. -/
def runAgentTurn (backend : Nat → BackendReply) (budget : Nat) : TurnOutcome × Nat :=
  agentLoopAux backend budget 0

/-- The iteration budget the source configures:
`ReActAgent(tools=..., llm=..., verbose=True, max_iterations=10)` in
`GmailAgent.initialize`. -/
def reactAgentMaxIterations : Nat := 10

/-! ## Further definitions used by the theorems -/

/-- `pat` occurs as a contiguous substring of `s`. -/
def strContains (s pat : String) : Prop :=
  List.IsInfix pat.data s.data

/-- The body extraction as the spec words it, for comparison with the
source's `extract_body`: in the multi-part case, select the first part
whose media type is exactly `text/plain` and decode its content, with
absent body data yielding the empty string; if no plain-text part
exists the body is empty; single-part `text/plain` payloads decode
directly; the result is truncated to 1000 characters. -/
def extract_body_spec (decode : String → String) (payload : MsgPart) : String :=
  let body :=
    match payload.parts with
    | some ps =>
      match ps.find? (fun p => p.mimeType == "text/plain") with
      | some p => (p.bodyData.map decode).getD ""
      | none => ""
    | none =>
      if payload.mimeType = "text/plain" then
        ((payload.bodyData.map decode)).getD ""
      else ""
  pyslice body 1000

/-- The body extraction as the amended claim words it, for every
payload shape `.mk mt hdrs bd op`: with a `"parts"` key, decode the
first part whose media type is `text/plain` and whose body data is
present and non-empty — skipping `text/plain` parts with absent or
empty data — and yield the empty string when no such part exists;
without a `"parts"` key, decode a `text/plain` payload's non-empty
data and yield the empty string when that data is absent or empty or
the payload is not `text/plain`; truncate to 1000 characters. -/
def extract_body_amended (decode : String → String) (mt : String)
    (bd : Option String) (op : Option (List MsgPart)) : String :=
  match op with
  | some parts =>
    (match parts.find?
        (fun p => p.mimeType == "text/plain" && !(p.bodyData.getD "" == "")) with
    | some p => pyslice (decode (p.bodyData.getD "")) 1000
    | none => "")
  | none =>
    if mt = "text/plain" then
      if bd.getD "" ≠ "" then pyslice (decode (bd.getD "")) 1000 else ""
    else ""

/-! Concrete fixtures used by the witness theorems. -/

/-- A raw message whose single-part `text/plain` body decodes to the
1001-character string `aaa...a`. -/
def longBodyMsg : GmailMessage :=
  ⟨"m1", "t1", none,
    .mk "text/plain" [] (some (String.mk (List.replicate 1001 'a'))) none⟩

/-- A raw message whose single-part `text/plain` body decodes to `"hello"`. -/
def shortBodyMsg : GmailMessage :=
  ⟨"m2", "t2", some ["INBOX"],
    .mk "text/plain" [⟨"Subject", "Hi"⟩, ⟨"From", "a@x.com"⟩] (some "hello") none⟩

/-- A raw message with no headers and no `labelIds`, whose only
`text/plain` content is nested inside a `multipart/alternative`
sub-part of its top-level parts list. -/
def nestedOnlyMsg : GmailMessage :=
  ⟨"m3", "t3", none,
    .mk "multipart/mixed" []
      none
      (some [.mk "multipart/alternative" [] none
        (some [.mk "text/plain" [] (some "nested") none])])⟩

/-- A multi-part payload whose first `text/plain` part has no body data
while a later `text/plain` part carries data `"x"`. -/
def skipEmptyPayload : MsgPart :=
  .mk "multipart/mixed" [] none
    (some [.mk "text/plain" [] none none, .mk "text/plain" [] (some "x") none])

/-- A three-message provider: every query matches ids `1`, `2`, `3`,
and fetching id `i` yields a message whose subject is `S-i`. -/
def sampleService : GmailServiceModel :=
  inboxService (fun _ => ["1", "2", "3"])
    (fun i => ⟨i, i, none, .mk "text/plain" [⟨"Subject", "S-" ++ i⟩] (some ("B" ++ i)) none⟩)
    id

/-- An authentication environment with no persisted token and no
client-secret file. -/
def noConfigEnv : AuthEnv :=
  ⟨none, false, fun _ => ⟨true, false, false⟩, ⟨true, false, false⟩⟩

/-- An authentication environment holding an expired, refreshable
persisted token. -/
def refreshableEnv : AuthEnv :=
  ⟨some ⟨false, true, true⟩, false, fun _ => ⟨true, false, false⟩, ⟨true, false, false⟩⟩

/-- A backend that requests a tool call at every iteration and never
produces a final answer. -/
def alwaysToolBackend : Nat → BackendReply :=
  fun _ => .toolCall "obs"

/-- A provider response that carries a `"messages"` list. -/
def someMessagesService : GmailServiceModel :=
  ⟨fun _ _ => ⟨some [⟨"1"⟩, ⟨"2"⟩]⟩, fun i => ⟨i, i, none, .mk "text/plain" [] none none⟩, id⟩

/-- A provider response without a `"messages"` key. -/
def noMessagesKeyService : GmailServiceModel :=
  ⟨fun _ _ => ⟨none⟩, fun i => ⟨i, i, none, .mk "text/plain" [] none none⟩, id⟩

/-! ## Helper lemmas -/

/-- If task `i` holds element `a`, then whatever the completion order,
the first completion recorded for index `i` carries `fetch a` (every
completion of task `i` fetches the same element, so duplicates are
harmless). -/
theorem completeTasks_find? (fetch : α → β) (ids : List α) (i : Nat) (a : α)
    (ha : ids[i]? = some a) :
    ∀ order : List Nat, i ∈ order →
      (completeTasks fetch ids order).find? (fun p => p.1 == i) =
        some (i, fetch a) := by
  intro order
  induction order with
  | nil => intro h; cases h
  | cons j rest ih =>
    intro hmem
    by_cases hji : j = i
    · subst hji
      simp [completeTasks, List.filterMap_cons, ha, List.find?_cons]
    · cases hg : ids[j]? with
      | none =>
        have hr : i ∈ rest := by
          rcases List.mem_cons.mp hmem with h | h
          · exact absurd h.symm hji
          · exact h
        simpa [completeTasks, List.filterMap_cons, hg] using ih hr
      | some b =>
        have hr : i ∈ rest := by
          rcases List.mem_cons.mp hmem with h | h
          · exact absurd h.symm hji
          · exact h
        have hne : (j == i) = false := by simp [hji]
        simpa [completeTasks, List.filterMap_cons, hg, List.find?_cons, hne]
          using ih hr

/-- `reassemble` always yields one slot per task. -/
theorem reassemble_length [Inhabited β] (n : Nat) (done : List (Nat × β)) :
    (reassemble n done).length = n := by
  simp [reassemble]

/-- `asyncio.gather` returns exactly one result per task, whatever the
completion order. -/
theorem asyncGather_length [Inhabited β] (fetch : α → β) (ids : List α)
    (order : List Nat) : (asyncGather fetch ids order).length = ids.length := by
  simp [asyncGather, reassemble_length]

/-- Appending strings concatenates their character lists. -/
theorem string_data_append (s t : String) : (s ++ t).data = s.data ++ t.data := by
  cases s; cases t; rfl

/-- Two strings with the same character list are equal. -/
theorem string_eq_of_data {s t : String} (h : s.data = t.data) : s = t :=
  congrArg String.mk h

/-- A string of the shape `(x ++ y) ++ z` contains `y ++ z`. -/
theorem strContains_append (x y z : String) : strContains ((x ++ y) ++ z) (y ++ z) :=
  ⟨x.data, [], by rw [List.append_nil, string_data_append, string_data_append,
    string_data_append, List.append_assoc]⟩

/-- The length of a Python slice `s[:n]`. -/
theorem pyslice_length (s : String) (n : Nat) :
    (pyslice s n).length = min n s.length := by
  cases s with
  | mk l => simp [pyslice, String.length]

/-- A slice at least as long as the string leaves it unchanged. -/
theorem pyslice_of_le (s : String) (n : Nat) (h : s.length ≤ n) :
    pyslice s n = s := by
  cases s with
  | mk l =>
    simp only [pyslice]
    rw [List.take_of_length_le]
    simpa [String.length] using h

/-- Slicing twice with the same bound is the same as slicing once. -/
theorem pyslice_idem (s : String) (n : Nat) :
    pyslice (pyslice s n) n = pyslice s n := by
  simp [pyslice, List.take_take]

/-- A header absent from the whole list reads as the default. -/
theorem headerGet_of_not_mem (hs : List Header) (key df : String)
    (h : ∀ x ∈ hs, x.name ≠ key) : headerGet hs key df = df := by
  have : hs.reverse.find? (fun x => x.name == key) = none := by
    apply List.find?_eq_none.mpr
    intro x hx
    simpa using h x (List.mem_reverse.mp hx)
  simp [headerGet, this]

/-- When a key occurs, the value of its last occurrence wins — the
dict-comprehension overwrite order. -/
theorem headerGet_last (key df v : String) (l₁ l₂ : List Header)
    (h : ∀ x ∈ l₂, x.name ≠ key) :
    headerGet (l₁ ++ ⟨key, v⟩ :: l₂) key df = v := by
  have hrev : (l₁ ++ ⟨key, v⟩ :: l₂).reverse =
      l₂.reverse ++ ⟨key, v⟩ :: l₁.reverse := by
    simp
  have hnone : l₂.reverse.find? (fun x => x.name == key) = none := by
    apply List.find?_eq_none.mpr
    intro x hx
    simpa using h x (List.mem_reverse.mp hx)
  rw [headerGet, hrev, List.find?_append, hnone]
  simp [List.find?_cons]

/-- The reassembly theorem: when every task completes exactly once — the
completion order is a permutation of the task indices — gathering
equals mapping the fetch over the id list in its original order,
independently of the completion order. -/
theorem asyncGather_perm [Inhabited β] (fetch : α → β) (ids : List α)
    (order : List Nat) (h : order.Perm (List.range ids.length)) :
    asyncGather fetch ids order = ids.map fetch := by
  apply List.ext_getElem
  · simp [asyncGather_length]
  · intro n h1 h2
    have hn : n < ids.length := by simpa using h2
    have hmem : n ∈ order := h.mem_iff.mpr (List.mem_range.mpr hn)
    have ha : ids[n]? = some ids[n] := List.getElem?_eq_getElem hn
    have hfind := completeTasks_find? fetch ids n (ids[n]) ha order hmem
    simp [asyncGather, reassemble, hfind, hn]

/-- The character count of `String.mk`. -/
theorem string_length_mk (l : List Char) : (String.mk l).length = l.length := rfl

/-- The top-level scan of `_extract_body` decodes exactly the first
`text/plain` part whose body data is non-empty, skipping `text/plain`
parts with absent or empty data. -/
theorem firstPlainText_eq_find (decode : String → String) (ps : List MsgPart) :
    firstPlainText decode ps =
      (match ps.find?
          (fun p => p.mimeType == "text/plain" && !(p.bodyData.getD "" == "")) with
      | some p => decode (p.bodyData.getD "")
      | none => "") := by
  induction ps with
  | nil => rfl
  | cons p rest ih =>
    by_cases hm : p.mimeType = "text/plain"
    · by_cases hd : p.bodyData.getD "" = ""
      · simp [firstPlainText, hm, hd, List.find?_cons, ih]
      · simp [firstPlainText, hm, hd, List.find?_cons]
    · simp [firstPlainText, hm, List.find?_cons, ih]

/-- A top-level parts list with no `text/plain` part yields an empty scan. -/
theorem firstPlainText_of_no_plain (decode : String → String) (ps : List MsgPart)
    (h : ∀ p ∈ ps, p.mimeType ≠ "text/plain") : firstPlainText decode ps = "" := by
  induction ps with
  | nil => rfl
  | cons p rest ih =>
    have hp : p.mimeType ≠ "text/plain" := h p (List.mem_cons_self p rest)
    have hr : ∀ q ∈ rest, q.mimeType ≠ "text/plain" :=
      fun q hq => h q (List.mem_cons_of_mem p hq)
    simp [firstPlainText, hp, ih hr]

/-- A backend that never produces a final answer drives the loop through
its whole remaining budget, one iteration per budget unit. -/
theorem agentLoopAux_always_tool (backend : Nat → BackendReply)
    (h : ∀ n, ∃ obs, backend n = .toolCall obs) :
    ∀ budget used, agentLoopAux backend budget used = (.failed, used + budget) := by
  intro budget
  induction budget with
  | zero => intro used; rfl
  | succ b ih =>
    intro used
    obtain ⟨obs, hb⟩ := h used
    rw [agentLoopAux, hb, ih (used + 1)]
    rw [Nat.add_comm b 1, Nat.add_assoc]

/-! ## Claim theorems -/

/-- C1: for every list of message ids returned by `list_messages`, the
email sequences produced by `search_emails` (its fetched list
`search_emails_fetched`) and by `get_recent_emails` equal the
originating id list mapped through `get_message` — i.e. they keep the
listing order — for every completion order of the concurrent per-id
fetches (every permutation of the task indices). -/
theorem gather_preserves_listing_order (svc : GmailServiceModel)
    (count : Nat) (query : String) (order₁ order₂ : List Nat)
    (h₁ : order₁.Perm (List.range (list_messages svc "" count).length))
    (h₂ : order₂.Perm (List.range (list_messages svc query (min count 10)).length)) :
    get_recent_emails svc order₁ count =
      (list_messages svc "" count).map (fun m => get_message svc m.id) ∧
    search_emails_fetched svc order₂ query count =
      (list_messages svc query (min count 10)).map (fun m => get_message svc m.id) :=
  ⟨asyncGather_perm _ _ _ h₁, asyncGather_perm _ _ _ h₂⟩

/-- C1 witness: a three-message provider, with the recent fetches
finishing in order 2,0,1 and the search fetches in order 1,2,0. -/
theorem gather_preserves_listing_order_witness :
    get_recent_emails sampleService [2, 0, 1] 3 =
      (list_messages sampleService "" 3).map (fun m => get_message sampleService m.id) ∧
    search_emails_fetched sampleService [1, 2, 0] "q" 3 =
      (list_messages sampleService "q" (min 3 10)).map
        (fun m => get_message sampleService m.id) :=
  gather_preserves_listing_order sampleService 3 "q" [2, 0, 1] [1, 2, 0]
    (by decide) (by decide)

/-- C2: the normalized `Email.body` is the decoded body truncated to
its first 1000 characters — length exactly 1000 when the decoded body
is longer, unchanged when it is at most 1000 characters — and the
truncation is idempotent. -/
theorem email_body_truncation (decode : String → String) (msg : GmailMessage) :
    (1000 < (decodedBody decode msg.payload).length →
      (parse_message decode msg).body.length = 1000 ∧
      (parse_message decode msg).body = pyslice (decodedBody decode msg.payload) 1000) ∧
    ((decodedBody decode msg.payload).length ≤ 1000 →
      (parse_message decode msg).body = decodedBody decode msg.payload) ∧
    pyslice ((parse_message decode msg).body) 1000 = (parse_message decode msg).body := by
  have hb : (parse_message decode msg).body =
      pyslice (decodedBody decode msg.payload) 1000 := rfl
  refine ⟨fun h => ⟨?_, hb⟩, fun h => ?_, ?_⟩
  · rw [hb, pyslice_length]
    omega
  · rw [hb, pyslice_of_le _ _ h]
  · rw [hb, pyslice_idem]

/-- C2 witness: a 1001-character decoded body is cut to length 1000,
and the 5-character body `"hello"` is left unchanged. -/
theorem email_body_truncation_witness :
    (parse_message id longBodyMsg).body.length = 1000 ∧
    (parse_message id shortBodyMsg).body = decodedBody id shortBodyMsg.payload :=
  ⟨((email_body_truncation id longBodyMsg).1
      (by rw [show decodedBody id longBodyMsg.payload =
                String.mk (List.replicate 1001 'a') from rfl,
              string_length_mk, List.length_replicate]
          omega)).1,
   (email_body_truncation id shortBodyMsg).2.1
      (by rw [show decodedBody id shortBodyMsg.payload = "hello" from rfl]
          decide)⟩

/-- C3: `list_recent_emails` clamps the caller-supplied count to 20 and
`search_emails` clamps it to 10 before fetching: against a provider that
honors `maxResults`, the fetched lists have exactly
`min (min count cap) available` emails — never more than the clamped
count, and never fewer than the provider has up to that bound. -/
theorem tool_count_clamping (inbox : String → List String)
    (msgs : String → GmailMessage) (decode : String → String)
    (order₁ order₂ : List Nat) (count : Nat) (query : String) :
    (list_recent_emails_fetched (inboxService inbox msgs decode) order₁ count).length =
      min (min count 20) (inbox "").length ∧
    (list_recent_emails_fetched (inboxService inbox msgs decode) order₁ count).length ≤
      min count 20 ∧
    (search_emails_fetched (inboxService inbox msgs decode) order₂ query count).length =
      min (min count 10) (inbox query).length ∧
    (search_emails_fetched (inboxService inbox msgs decode) order₂ query count).length ≤
      min count 10 := by
  have hl : ∀ (q : String) (k : Nat),
      (list_messages (inboxService inbox msgs decode) q k).length =
        min k (inbox q).length := by
    intro q k
    simp [list_messages, inboxService]
  have h1 : (list_recent_emails_fetched (inboxService inbox msgs decode) order₁
      count).length = min (min count 20) (inbox "").length := by
    rw [list_recent_emails_fetched, get_recent_emails, asyncGather_length, hl]
  have h2 : (search_emails_fetched (inboxService inbox msgs decode) order₂ query
      count).length = min (min count 10) (inbox query).length := by
    rw [search_emails_fetched, asyncGather_length, hl]
  exact ⟨h1, by rw [h1]; exact Nat.min_le_left _ _,
         h2, by rw [h2]; exact Nat.min_le_left _ _⟩

/-- C4: with `N` the size of the 20-capped recent list,
`get_email_details` with an `email_index` outside `[1, N]` returns the
sentinel error text, which contains the valid range `1-N`, instead of
failing; for an `email_index` inside `[1, N]` it returns the rendered
details of the `email_index`-th email of that list (the model is a
total function, so no exception is possible). -/
theorem get_email_details_index_range (svc : GmailServiceModel) (order : List Nat)
    (email_index : Int) :
    (email_index < 1 ∨ email_index > ((get_recent_emails svc order 20).length : Int) →
      get_email_details svc order email_index =
        "Email index " ++ toString email_index ++ " not found. Available: 1-" ++
          toString (get_recent_emails svc order 20).length ∧
      strContains (get_email_details svc order email_index)
        ("1-" ++ toString (get_recent_emails svc order 20).length)) ∧
    (1 ≤ email_index →
      email_index ≤ ((get_recent_emails svc order 20).length : Int) →
      (email_index - 1).toNat < (get_recent_emails svc order 20).length ∧
      get_email_details svc order email_index =
        renderDetails ((get_recent_emails svc order 20).getD
          (email_index - 1).toNat default)) := by
  constructor
  · intro h
    have hif : get_email_details svc order email_index =
        "Email index " ++ toString email_index ++ " not found. Available: 1-" ++
          toString (get_recent_emails svc order 20).length := by
      simp only [get_email_details]
      rw [if_pos (Or.inr h)]
    refine ⟨hif, ?_⟩
    have hsplit : "Email index " ++ toString email_index ++
        " not found. Available: 1-" ++
          toString (get_recent_emails svc order 20).length =
        (("Email index " ++ toString email_index ++ " not found. Available: ") ++
          "1-") ++ toString (get_recent_emails svc order 20).length := by
      apply string_eq_of_data
      simp only [string_data_append, List.append_assoc]
      simp
    rw [hif, hsplit]
    exact strContains_append _ _ _
  · intro h1 h2
    have hne : ¬ ((get_recent_emails svc order 20).isEmpty = true) := by
      simp only [List.isEmpty_iff, ← List.length_eq_zero]
      omega
    have hnot : ¬ ((get_recent_emails svc order 20).isEmpty ∨ email_index < 1 ∨
        email_index > ((get_recent_emails svc order 20).length : Int)) := by
      push_neg
      exact ⟨by simpa using hne, by omega, by omega⟩
    constructor
    · omega
    · simp only [get_email_details]
      rw [if_neg hnot]

/-- C4 witness: against the three-message provider the capped recent
list has 3 emails; index 5 yields the sentinel error text and index 2
yields the rendered details of the second email. -/
theorem get_email_details_index_range_witness :
    get_email_details sampleService [0, 1, 2] 5 =
      "Email index " ++ toString (5 : Int) ++ " not found. Available: 1-" ++
        toString (get_recent_emails sampleService [0, 1, 2] 20).length ∧
    get_email_details sampleService [0, 1, 2] 2 =
      renderDetails ((get_recent_emails sampleService [0, 1, 2] 20).getD
        ((2 : Int) - 1).toNat default) :=
  ⟨((get_email_details_index_range sampleService [0, 1, 2] 5).1 (by decide)).1,
   ((get_email_details_index_range sampleService [0, 1, 2] 2).2 (by decide)
      (by decide)).2⟩

/-- C5: `parse_message` never fails on missing headers — a payload with
no `Subject` header normalizes to subject `"No Subject"`, and one with
no `From`/`To`/`Date` header to `"Unknown"` for sender, recipient and
date respectively — and when a header name occurs more than once, the
value of the last occurrence wins. -/
theorem header_defaults (decode : String → String) (msg : GmailMessage) :
    ((∀ h ∈ msg.payload.headers, h.name ≠ "Subject") →
      (parse_message decode msg).subject = "No Subject") ∧
    ((∀ h ∈ msg.payload.headers, h.name ≠ "From") →
      (parse_message decode msg).sender = "Unknown") ∧
    ((∀ h ∈ msg.payload.headers, h.name ≠ "To") →
      (parse_message decode msg).recipient = "Unknown") ∧
    ((∀ h ∈ msg.payload.headers, h.name ≠ "Date") →
      (parse_message decode msg).date = "Unknown") ∧
    (∀ (key df v : String) (l₁ l₂ : List Header),
      (∀ h ∈ l₂, h.name ≠ key) →
      headerGet (l₁ ++ ⟨key, v⟩ :: l₂) key df = v) :=
  ⟨fun h => headerGet_of_not_mem _ _ _ h,
   fun h => headerGet_of_not_mem _ _ _ h,
   fun h => headerGet_of_not_mem _ _ _ h,
   fun h => headerGet_of_not_mem _ _ _ h,
   fun _ _ _ _ _ h => headerGet_last _ _ _ _ _ h⟩

/-- C5 witness: a message with an empty header list takes all four
placeholders, and a duplicated `From` header reads as its last value. -/
theorem header_defaults_witness :
    (parse_message id nestedOnlyMsg).subject = "No Subject" ∧
    (parse_message id nestedOnlyMsg).sender = "Unknown" ∧
    (parse_message id nestedOnlyMsg).recipient = "Unknown" ∧
    (parse_message id nestedOnlyMsg).date = "Unknown" ∧
    headerGet ([⟨"From", "first"⟩] ++ ⟨"From", "second"⟩ :: []) "From" "?" =
      "second" :=
  ⟨(header_defaults id nestedOnlyMsg).1 (by decide),
   (header_defaults id nestedOnlyMsg).2.1 (by decide),
   (header_defaults id nestedOnlyMsg).2.2.1 (by decide),
   (header_defaults id nestedOnlyMsg).2.2.2.1 (by decide),
   (header_defaults id nestedOnlyMsg).2.2.2.2 "From" "?" "second"
     [⟨"From", "first"⟩] [] (by decide)⟩

/-- C6 counterexample: on a multi-part payload whose first `text/plain`
part carries no body data while a second `text/plain` part carries
`"x"`, the source decodes the second part (the `break` sits inside
`if data:`), so the claim that only the first `text/plain` part is
decoded — under which the body would be empty, as the spec-worded
`extract_body_spec` computes — is false. -/
theorem extract_body_first_plain_counterexample :
    extract_body id skipEmptyPayload = "x" ∧
    extract_body_spec id skipEmptyPayload = "" ∧
    extract_body id skipEmptyPayload ≠ extract_body_spec id skipEmptyPayload := by
  refine ⟨rfl, rfl, ?_⟩
  decide

/-- C6 (amended): body extraction never fails, on any payload shape —
`extract_body` coincides with the amended-claim extraction
`extract_body_amended`: with a `"parts"` key it decodes exactly the
first part whose media type is `text/plain` *and* whose body data is
present and non-empty, skipping `text/plain` parts with absent or
empty data, and yields the empty string when no such part exists;
without a `"parts"` key it decodes a single-part `text/plain`
payload's non-empty data, and yields the empty string when that data
is absent or empty (malformed or absent body data) or the payload is
not `text/plain`. -/
theorem extract_body_first_nonempty_plain (decode : String → String)
    (mt : String) (hdrs : List Header) (bd : Option String)
    (op : Option (List MsgPart)) :
    extract_body decode (.mk mt hdrs bd op) =
      extract_body_amended decode mt bd op := by
  cases op with
  | some parts =>
    have hd : decodedBody decode (.mk mt hdrs bd (some parts)) =
        firstPlainText decode parts := rfl
    rw [extract_body, hd, firstPlainText_eq_find]
    simp only [extract_body_amended]
    cases parts.find?
        (fun p => p.mimeType == "text/plain" && !(p.bodyData.getD "" == "")) with
    | none => rfl
    | some p => rfl
  | none =>
    have hd : decodedBody decode (.mk mt hdrs bd none) =
        (if mt = "text/plain" then
          (if bd.getD "" ≠ "" then decode (bd.getD "") else "")
        else "") := rfl
    rw [extract_body, hd]
    simp only [extract_body_amended]
    by_cases hm : mt = "text/plain"
    · by_cases hdne : bd.getD "" ≠ ""
      · rw [if_pos hm, if_pos hdne, if_pos hm, if_pos hdne]
      · rw [if_pos hm, if_neg hdne, if_pos hm, if_neg hdne]
        rfl
    · rw [if_neg hm, if_neg hm]
      rfl

/-- C7: `authenticate` raises the credentials-unavailable error exactly
when the interactive grant is required (no persisted token, or an
invalid one the source's refresh branch does not take) and the
client-secret file is missing; in every other case — assuming the
external refresh and grant flows yield valid credentials — it
establishes valid credentials, and it persists them to the token store
whenever they came from a refresh or a grant (it skips the write only
when a valid persisted token was loaded unchanged). -/
theorem authenticate_credentials_policy (env : AuthEnv)
    (hrefresh : ∀ c, (env.refreshOutcome c).valid = true)
    (hgrant : env.grantOutcome.valid = true) :
    (authenticate env = .credentialsUnavailable ↔
      interactiveGrantRequired env ∧ env.credentialsFileExists = false) ∧
    (∀ c p, authenticate env = .ok c p →
      c.valid = true ∧
      (p = none → env.tokenFile = some c ∧ c.valid = true) ∧
      (env.tokenFile = some c ∧ c.valid = true ∨ p = some c)) := by
  rcases htf : env.tokenFile with _ | c
  · cases hcf : env.credentialsFileExists
    · constructor
      · simp [authenticate, htf, hcf, interactiveGrantRequired]
      · intro c p hok
        simp [authenticate, htf, hcf] at hok
    · constructor
      · simp [authenticate, htf, hcf, interactiveGrantRequired]
      · intro c p hok
        simp only [authenticate, htf, hcf, if_true] at hok
        cases hok
        exact ⟨hgrant, by simp, Or.inr rfl⟩
  · by_cases hv : c.valid = true
    · constructor
      · simp [authenticate, htf, hv, interactiveGrantRequired]
      · intro c' p hok
        simp only [authenticate, htf, hv, if_true] at hok
        cases hok
        exact ⟨hv, fun _ => ⟨rfl, hv⟩, Or.inl ⟨rfl, hv⟩⟩
    · have hv' : c.valid = false := by
        cases hcv : c.valid
        · rfl
        · exact absurd hcv hv
      by_cases hr : (c.expired && c.hasRefreshToken) = true
      · constructor
        · constructor
          · intro hcontr
            simp [authenticate, htf, hv', hr] at hcontr
          · rintro ⟨hreq, _⟩
            rcases hreq with h | ⟨c'', hc'', hval, hexp⟩
            · rw [htf] at h; cases h
            · rw [htf] at hc''
              cases hc''
              rw [hr] at hexp
              exact absurd hexp (by decide)
        · intro c' p hok
          simp only [authenticate, htf, hv', hr, if_true, if_false,
            Bool.false_eq_true] at hok
          cases hok
          exact ⟨hrefresh c, by simp, Or.inr rfl⟩
      · have hr' : (c.expired && c.hasRefreshToken) = false := by
          cases hb : (c.expired && c.hasRefreshToken)
          · rfl
          · exact absurd hb hr
        cases hcf : env.credentialsFileExists
        · constructor
          · constructor
            · intro _
              exact ⟨Or.inr ⟨c, htf, hv', hr'⟩, rfl⟩
            · intro _
              simp [authenticate, htf, hv', hr', hcf]
          · intro c' p hok
            simp [authenticate, htf, hv', hr', hcf] at hok
        · constructor
          · constructor
            · intro hcontr
              simp [authenticate, htf, hv', hr', hcf] at hcontr
            · rintro ⟨_, hfe⟩
              exact absurd hfe (by decide)
          · intro c' p hok
            simp only [authenticate, htf, hv', hr', hcf, if_true, if_false,
              Bool.false_eq_true] at hok
            cases hok
            exact ⟨hgrant, by simp, Or.inr rfl⟩

/-- C7 witness: with no persisted token and no client-secret file,
`authenticate` fails with the credentials-unavailable error; with an
expired refreshable token it succeeds with valid credentials. -/
theorem authenticate_credentials_policy_witness :
    authenticate noConfigEnv = .credentialsUnavailable ∧
    TokenCreds.valid ⟨true, false, false⟩ = true :=
  ⟨(authenticate_credentials_policy noConfigEnv (fun _ => rfl) rfl).1.mpr
      ⟨Or.inl rfl, rfl⟩,
   ((authenticate_credentials_policy refreshableEnv (fun _ => rfl) rfl).2
      ⟨true, false, false⟩ (some ⟨true, false, false⟩) rfl).1⟩

/-- C8: a generation backend that always requests a tool call and never
returns a final answer drives the Agent Loop to the terminal `Failed`
state after exactly the configured budget of 10 iterations — not more,
not fewer — and that outcome is distinct from every successful answer. -/
theorem agent_loop_budget (backend : Nat → BackendReply)
    (h : ∀ n, ∃ obs, backend n = .toolCall obs) :
    runAgentTurn backend reactAgentMaxIterations = (.failed, 10) ∧
    ∀ t, (runAgentTurn backend reactAgentMaxIterations).1 ≠ TurnOutcome.done t := by
  have hrun : runAgentTurn backend reactAgentMaxIterations = (.failed, 10) := by
    rw [runAgentTurn, agentLoopAux_always_tool backend h]
    rfl
  refine ⟨hrun, fun t hc => ?_⟩
  rw [hrun] at hc
  exact TurnOutcome.noConfusion hc

/-- C8 witness: the always-tool-calling backend exhausts the budget of
10 and fails. -/
theorem agent_loop_budget_witness :
    runAgentTurn alwaysToolBackend reactAgentMaxIterations = (.failed, 10) :=
  (agent_loop_budget alwaysToolBackend (fun _ => ⟨"obs", rfl⟩)).1

/-- C9: `list_messages` returns the provider response's `"messages"`
value when the key is present and the empty list when it is absent;
being a total function of the response, an absent key never fails. -/
theorem list_messages_messages_key (svc : GmailServiceModel) (query : String)
    (k : Nat) :
    (∀ l, (svc.rawList query k).messages = some l →
      list_messages svc query k = l) ∧
    ((svc.rawList query k).messages = none → list_messages svc query k = []) := by
  constructor
  · intro l h
    rw [list_messages, h]
    rfl
  · intro h
    rw [list_messages, h]
    rfl

/-- C9 witness: a response carrying two message refs yields exactly
them; a response without a `"messages"` key yields `[]`. -/
theorem list_messages_messages_key_witness :
    list_messages someMessagesService "q" 5 = [⟨"1"⟩, ⟨"2"⟩] ∧
    list_messages noMessagesKeyService "q" 5 = [] :=
  ⟨(list_messages_messages_key someMessagesService "q" 5).1 [⟨"1"⟩, ⟨"2"⟩] rfl,
   (list_messages_messages_key noMessagesKeyService "q" 5).2 rfl⟩

/-- C10: only the top-level parts list is scanned for a `text/plain`
part — a multi-part payload none of whose top-level parts is
`text/plain` has an empty body even when `text/plain` content nests
inside a sub-part — and a message without a `labelIds` key normalizes
to an empty labels list. -/
theorem toplevel_parts_scan_and_labels (decode : String → String)
    (mt : String) (hdrs : List Header) (bd : Option String)
    (parts : List MsgPart) (msg : GmailMessage)
    (hparts : ∀ p ∈ parts, p.mimeType ≠ "text/plain")
    (hlab : msg.labelIds = none) :
    extract_body decode (.mk mt hdrs bd (some parts)) = "" ∧
    (parse_message decode msg).labels = [] := by
  constructor
  · have hd : decodedBody decode (.mk mt hdrs bd (some parts)) =
        firstPlainText decode parts := rfl
    rw [extract_body, hd, firstPlainText_of_no_plain decode parts hparts]
    rfl
  · have hl : (parse_message decode msg).labels = msg.labelIds.getD [] := rfl
    rw [hl, hlab]
    rfl

/-- C10 witness: a `multipart/mixed` payload whose only `text/plain`
content sits inside a `multipart/alternative` sub-part normalizes to an
empty body, and `nestedOnlyMsg` (no `labelIds`) to empty labels. -/
theorem toplevel_parts_scan_and_labels_witness :
    extract_body id (.mk "multipart/mixed" [] none
      (some [.mk "multipart/alternative" [] none
        (some [.mk "text/plain" [] (some "nested") none])])) = "" ∧
    (parse_message id nestedOnlyMsg).labels = [] :=
  toplevel_parts_scan_and_labels id "multipart/mixed" [] none
    [.mk "multipart/alternative" [] none
      (some [.mk "text/plain" [] (some "nested") none])]
    nestedOnlyMsg (by decide) rfl
